import Mathlib

/-!
Verification of the GrowEasy analytics dashboard (src/app.py) against its
specification. The dashboard's pipeline — schema-checking CSV load, a
conjunctive sidebar filter, and a battery of groupby/aggregate chart-data
computations — is shallowly embedded here: a dataframe row becomes a
`Record`, a dataframe becomes a `List Record` (order = row order), pandas
boolean-mask filtering becomes `List.filter`, `groupby(key)[m].sum()`
becomes `groupSum`, `Series.idxmax` becomes `seriesIdxmax` (pandas raises
`ValueError` on an empty series, modelled as an `Except` error), `pd.cut`
with the source's bins becomes `spendingTier` (default `right=True`,
`include_lowest=False`: bins are left-exclusive/right-inclusive, values
outside every bin become NaN and are dropped by `value_counts`), and
`DataFrame.sample` (seedless, driven by the global RNG) takes the RNG
state as an explicit argument.

Definitions come first, the claim theorems after them.
-/

namespace GrowEasy

/-- One row of the supermarket CSV, after the loader's column-name
normalization. `cluster_category` models the optional second segment
column that survives loading untouched when both spellings are present
in the CSV (no downstream computation reads it). -/
structure Record where
  customer_id : Nat
  outlet_city : String
  cluster_catgeory : String
  luxury_sales : Int
  fresh_sales : Int
  dry_sales : Int
  total_sales : Int
  cluster_category : Option String := none
deriving Repr, DecidableEq

/-- The sidebar filter state of `main` (src/app.py lines 129-153): the
multiselects for city and segment and the inclusive total-sales range
slider. -/
structure FilterCriteria where
  cities : List String
  segments : List String
  min_total : Int
  max_total : Int
deriving Repr, DecidableEq

/-- The boolean mask of src/app.py lines 156-161:
`df['outlet_city'].isin(selected_cities) &
 df['cluster_catgeory'].isin(selected_segments) &
 (df['Total_sales'] >= sales_range[0]) & (df['Total_sales'] <= sales_range[1])`. -/
def recordPasses (c : FilterCriteria) (r : Record) : Bool :=
  decide (r.outlet_city ∈ c.cities) && decide (r.cluster_catgeory ∈ c.segments) &&
    decide (c.min_total ≤ r.total_sales) && decide (r.total_sales ≤ c.max_total)

/-- `filtered_df = df[mask]` (src/app.py line 156): keep exactly the rows
whose mask is true, in row order. -/
def applyFilter (c : FilterCriteria) (df : List Record) : List Record :=
  df.filter (recordPasses c)

/-- The filter predicate as §4.2 of the spec words it, for the refinement
comparison with `recordPasses`: city selected AND segment selected AND
total in the inclusive range. -/
def passesSpec (c : FilterCriteria) (r : Record) : Prop :=
  r.outlet_city ∈ c.cities ∧ r.cluster_catgeory ∈ c.segments ∧
    c.min_total ≤ r.total_sales ∧ r.total_sales ≤ c.max_total

instance (c : FilterCriteria) (r : Record) : Decidable (passesSpec c r) := by
  unfold passesSpec; infer_instance

/-- pandas `df.groupby(key)[measure].sum()`: one entry per distinct key
(first-occurrence order; the claims proved here do not depend on pandas'
alphabetical key sort), each holding the sum of `measure` over the rows
with that key. -/
def groupSum (key : Record → String) (measure : Record → Int) (df : List Record) :
    List (String × Int) :=
  ((df.map key).dedup).map
    (fun k => (k, ((df.filter (fun r => decide (key r = k))).map measure).sum))

/-- The error outcomes relevant to the empty-input claims: the unguarded
pandas `ValueError` that `Series.idxmax()` raises on an empty series
("attempt to get argmax of an empty sequence"), and the spec's
`NoDataError` (which the source never raises). -/
inductive AppError where
  | pandasEmptyArgmax
  | noDataError
deriving Repr, DecidableEq

/-- pandas `Series.idxmax()`: the label of the (first) maximal value;
raises on an empty series. -/
def seriesIdxmax (s : List (String × Int)) : Except AppError String :=
  match s with
  | [] => .error .pandasEmptyArgmax
  | x :: xs => .ok (xs.foldl (fun best p => if best.2 < p.2 then p else best) x).1

/-- src/app.py line 93: `df.groupby('cluster_catgeory')['Total_sales'].sum().idxmax()`
inside `create_customer_insights_box`. -/
def create_customer_insights_box_topSegment (df : List Record) : Except AppError String :=
  seriesIdxmax (groupSum (fun r => r.cluster_catgeory) (fun r => r.total_sales) df)

/-- src/app.py line 380: `df.groupby('outlet_city')['Total_sales'].sum().idxmax()`
inside `create_hero_metrics`. -/
def create_hero_metrics_topCity (df : List Record) : Except AppError String :=
  seriesIdxmax (groupSum (fun r => r.outlet_city) (fun r => r.total_sales) df)

/-- The pandas DataFrame as far as the loader inspects it: the column-name
header plus the rows (`load_data` only examines and renames `df.columns`;
the row data rides along untouched). -/
structure DataFrame where
  cols : List String
  rows : List Record
deriving Repr, DecidableEq

/-- The `expected_columns` list of `load_data` (src/app.py lines 908-909). -/
def expected_columns : List String :=
  ["Customer_ID", "outlet_city", "luxury_sales", "fresh_sales", "dry_sales",
   "cluster_name", "Total_sales"]

/-- The six required data fields named by the schema claim (the segment
label is handled separately through its two spellings). -/
def requiredDataCols : List String :=
  ["Customer_ID", "outlet_city", "luxury_sales", "fresh_sales", "dry_sales", "Total_sales"]

/-- The payload of the loader's fatal schema report: the missing/expected
field names and the dataset's actual column names, as printed by the
`st.error` calls before `st.stop()`. -/
structure SchemaErrorInfo where
  missing : List String
  available : List String
deriving Repr, DecidableEq

/-- src/app.py lines 912-913 (and 949-950):
`df.rename(columns={'cluster_category': 'cluster_catgeory'})`, applied only
when `cluster_category` is present and `cluster_catgeory` is not. -/
def renameClusterColumns (cols : List String) : List String :=
  if "cluster_category" ∈ cols ∧ "cluster_catgeory" ∉ cols then
    cols.map (fun c => if c = "cluster_category" then "cluster_catgeory" else c)
  else cols

/-- The `missing_columns` accumulation of `load_data` (src/app.py lines
920-926): every expected column absent after the rename, plus
`cluster_catgeory` itself when still absent. -/
def loadMissing (df : DataFrame) : List String :=
  expected_columns.filter (fun c => decide (c ∉ renameClusterColumns df.cols)) ++
    (if "cluster_catgeory" ∉ renameClusterColumns df.cols then ["cluster_catgeory"] else [])

/-- `load_data`'s primary path (src/app.py lines 902-933): resolve the
segment column under its two spellings (error if both are absent), then
collect every expected column still missing after the rename; a non-empty
missing list is reported together with the actual columns and the program
halts (`st.stop()`), otherwise the renamed dataset is returned. -/
def load_data_fromFile (df : DataFrame) : Except SchemaErrorInfo DataFrame :=
  if "cluster_catgeory" ∉ df.cols ∧ "cluster_category" ∉ df.cols then
    .error ⟨["cluster_catgeory", "cluster_category"], df.cols⟩
  else if loadMissing df = [] then .ok ⟨renameClusterColumns df.cols, df.rows⟩
  else .error ⟨loadMissing df, renameClusterColumns df.cols⟩

/-- `load_data`'s upload fallback (src/app.py lines 944-951): the uploaded
CSV gets at most the segment-column rename and is returned with no check
that the other required columns are present. -/
def load_data_fromUpload (df : DataFrame) : Except SchemaErrorInfo DataFrame :=
  .ok ⟨renameClusterColumns df.cols, df.rows⟩

/-- A pandas `KeyError`, as raised by `df[c]` on an absent column: it
carries only the requested key — neither the expected field list nor the
actual column set. -/
structure KeyErrorInfo where
  key : String
deriving Repr, DecidableEq

/-- src/app.py line 119 in `main`: `df = pd.read_csv("GrowEasyAnalytics_1.csv")`.
This is the program's actual load path, and it performs no schema check:
the frame is returned exactly as read. (`load_data`, lines 902-933, which
does check, is defined after the `main()` call at line 901 and is never
invoked from anywhere.) -/
def main_load (df : DataFrame) : DataFrame := df

/-- pandas column access `df[c]`, as `main` performs right after loading
(first at line 128, `df['outlet_city']`): succeeds when the column
exists, otherwise raises a bare `KeyError` naming only the key. Only the
success/failure of the lookup matters to the claims, so the series'
values are elided. -/
def getColumn (df : DataFrame) (c : String) : Except KeyErrorInfo Unit :=
  if c ∈ df.cols then .ok () else .error ⟨c⟩

/-- src/app.py line 509: `df.groupby('cluster_catgeory')['Total_sales'].sum()`,
the data behind `create_cluster_donut_chart`. -/
def create_cluster_donut_data (df : List Record) : List (String × Int) :=
  groupSum (fun r => r.cluster_catgeory) (fun r => r.total_sales) df

/-- Overwrite the passenger `cluster_category` column of a row, leaving
every field the dashboard reads untouched. -/
def setClusterCategory (f : Record → Option String) (r : Record) : Record :=
  { r with cluster_category := f r }

/-- The bin labels of src/app.py lines 655-656. -/
def tierLabels : List String :=
  ["Low (0-2K)", "Medium (2K-5K)", "High (5K-10K)", "Premium (10K-20K)", "VIP (20K+)"]

/-- `pd.cut(df_copy['Total_sales'], bins=[0, 2000, 5000, 10000, 20000, inf], labels=...)`
(src/app.py lines 653-656) with the pandas defaults `right=True`,
`include_lowest=False`: every bin is left-exclusive/right-inclusive, and a
value outside every bin (here exactly `Total_sales ≤ 0`) becomes NaN,
modelled as `none`. -/
def spendingTier (t : Int) : Option String :=
  if 0 < t ∧ t ≤ 2000 then some "Low (0-2K)"
  else if 2000 < t ∧ t ≤ 5000 then some "Medium (2K-5K)"
  else if 5000 < t ∧ t ≤ 10000 then some "High (5K-10K)"
  else if 10000 < t ∧ t ≤ 20000 then some "Premium (10K-20K)"
  else if 20000 < t then some "VIP (20K+)"
  else none

/-- `spending_ranges.value_counts()` (src/app.py line 658): how many rows
the cut assigned to each tier label; NaN rows (out-of-bin totals) are
counted under no label. -/
def create_customer_spending_tiers_counts (df : List Record) : List (String × Nat) :=
  tierLabels.map (fun lab =>
    (lab, (df.filter (fun r => decide (spendingTier r.total_sales = some lab))).length))

/-- src/app.py line 351 in `create_hero_metrics`:
`luxury_share = (df['luxury_sales'].sum() / df['Total_sales'].sum()) * 100`.
Exact rational arithmetic stands in for Python floats here; the 100%-sum
property at issue is exact. -/
def luxury_share (df : List Record) : ℚ :=
  (((df.map (fun r => r.luxury_sales)).sum : ℤ) : ℚ) /
    (((df.map (fun r => r.total_sales)).sum : ℤ) : ℚ) * 100

/-- src/app.py line 361: `fresh_share = (fresh_revenue / total_revenue) * 100`. -/
def fresh_share (df : List Record) : ℚ :=
  (((df.map (fun r => r.fresh_sales)).sum : ℤ) : ℚ) /
    (((df.map (fun r => r.total_sales)).sum : ℤ) : ℚ) * 100

/-- src/app.py line 371: `dry_share = (dry_revenue / total_revenue) * 100`. -/
def dry_share (df : List Record) : ℚ :=
  (((df.map (fun r => r.dry_sales)).sum : ℤ) : ℚ) /
    (((df.map (fun r => r.total_sales)).sum : ℤ) : ℚ) * 100

/-- pandas `sort_values(ascending=False)` on a labeled series: descending
by value. (pandas' default quicksort leaves tie order unspecified; the
claims proved here do not depend on tie order.) -/
def sortDescBySnd (l : List (String × Int)) : List (String × Int) :=
  l.mergeSort (fun a b => decide (b.2 ≤ a.2))

/-- pandas label assignment `top_cities['Others'] = others_sum` (src/app.py
line 459): overwrite the entry carrying label `k` when present, append a
new entry otherwise. -/
def setSeriesItem (l : List (String × Int)) (k : String) (v : Int) : List (String × Int) :=
  if k ∈ l.map Prod.fst then l.map (fun p => if p.1 = k then (k, v) else p)
  else l ++ [(k, v)]

/-- src/app.py line 452:
`city_revenue = df.groupby('outlet_city')['Total_sales'].sum().sort_values(ascending=False)`. -/
def city_revenue (df : List Record) : List (String × Int) :=
  sortDescBySnd (groupSum (fun r => r.outlet_city) (fun r => r.total_sales) df)

/-- src/app.py line 457: `others_sum = city_revenue.tail(len(city_revenue) - 10).sum()`
(everything beyond the first 10 entries). -/
def others_sum (df : List Record) : Int :=
  (((city_revenue df).drop 10).map Prod.snd).sum

/-- src/app.py lines 455-462 in `create_city_revenue_donut`: with more
than 10 cities, keep the top 10 and attach the remaining revenue under
`'Others'` when it is positive; otherwise use the full series. -/
def create_city_revenue_donut_data (df : List Record) : List (String × Int) :=
  if 10 < (city_revenue df).length then
    if 0 < others_sum df then
      setSeriesItem ((city_revenue df).take 10) "Others" (others_sum df)
    else (city_revenue df).take 10
  else city_revenue df

/-- pandas `df.sample(n)` without `random_state` (src/app.py line 806):
the selection depends on the hidden global NumPy RNG, made explicit here
as a `seed` argument; each RNG state starts the selection at a different
offset into the rows — one faithful rendering of "which n rows you get
depends on RNG state the caller does not control". -/
def sampleRows (seed : Nat) (n : Nat) (df : List Record) : List Record :=
  (df.drop (seed % df.length) ++ df.take (seed % df.length)).take n

/-- src/app.py line 806 in `create_customer_segment_analysis`: the scatter
plot's row set, `df.sample(10000) if len(df) > 10000 else df`. -/
def create_customer_segment_analysis_data (seed : Nat) (df : List Record) : List Record :=
  if 10000 < df.length then sampleRows seed 10000 df else df

/-- A 10,001-row dataset (row i carries customer id i), exhibiting the
sampling branch of the segment-analysis scatter. -/
def bigDf : List Record :=
  (List.range 10001).map (fun i => ⟨i, "Colombo", "A", 0, 0, 0, 1, none⟩)

/-! ## Claim theorems -/

theorem recordPasses_iff (c : FilterCriteria) (r : Record) :
    recordPasses c r = true ↔ passesSpec c r := by
  simp [recordPasses, passesSpec, and_assoc]

/-- C1: the filter keeps exactly the records whose city is selected, whose
segment is selected and whose total sales lie in the inclusive range, in
input order (the output is a sublist of the input and agrees with the
spec-side predicate `passesSpec`); an empty city selection or an empty
segment selection yields the empty result. -/
theorem filter_exactly_matches_spec (c : FilterCriteria) (df : List Record) :
    (applyFilter c df).Sublist df ∧
    applyFilter c df = df.filter (fun r => decide (passesSpec c r)) ∧
    (∀ r, r ∈ applyFilter c df ↔
      r ∈ df ∧ r.outlet_city ∈ c.cities ∧ r.cluster_catgeory ∈ c.segments ∧
        c.min_total ≤ r.total_sales ∧ r.total_sales ≤ c.max_total) ∧
    (c.cities = [] → applyFilter c df = []) ∧
    (c.segments = [] → applyFilter c df = []) := by
  refine ⟨List.filter_sublist df, ?_, ?_, ?_, ?_⟩
  · apply List.filter_congr
    intro r _
    rcases h : decide (passesSpec c r) with _ | _
    · rw [Bool.eq_false_iff]
      intro hh
      exact (of_decide_eq_false h) ((recordPasses_iff c r).1 hh)
    · exact (recordPasses_iff c r).2 (of_decide_eq_true h)
  · intro r
    simp only [applyFilter, List.mem_filter, recordPasses_iff, passesSpec, and_assoc]
  · intro hc
    apply List.filter_eq_nil_iff.2
    intro r _
    simp [recordPasses, hc]
  · intro hs
    apply List.filter_eq_nil_iff.2
    intro r _
    simp [recordPasses, hs]

/-- C1 witness: the spec's §8 example scenario. With cities = {Colombo},
segments = {A, B}, range [0, 10000], the three-record set filters down to
the two Colombo records in input order; and an empty city selection
empties the result. -/
theorem filter_exactly_matches_spec_witness :
    applyFilter ⟨["Colombo"], ["A", "B"], 0, 10000⟩
      [⟨1, "Colombo", "A", 0, 0, 0, 1000, none⟩,
       ⟨2, "Colombo", "B", 0, 0, 0, 3000, none⟩,
       ⟨3, "Kandy", "A", 0, 0, 0, 500, none⟩] =
      [⟨1, "Colombo", "A", 0, 0, 0, 1000, none⟩,
       ⟨2, "Colombo", "B", 0, 0, 0, 3000, none⟩] ∧
    applyFilter ⟨[], ["A"], 0, 10000⟩ [⟨1, "Colombo", "A", 0, 0, 0, 1000, none⟩] = [] := by
  constructor
  · rfl
  · exact (filter_exactly_matches_spec ⟨[], ["A"], 0, 10000⟩
      [⟨1, "Colombo", "A", 0, 0, 0, 1000, none⟩]).2.2.2.1 rfl

/-- C2: on the empty record set the single-value metrics crash on the
unguarded empty-series argmax (pandas `ValueError`), not with the clear
`NoDataError` the claim requires — the guard is absent from the source. -/
theorem empty_input_crashes_on_unguarded_argmax :
    create_customer_insights_box_topSegment [] = Except.error AppError.pandasEmptyArgmax ∧
    create_customer_insights_box_topSegment [] ≠ Except.error AppError.noDataError ∧
    create_hero_metrics_topCity [] = Except.error AppError.pandasEmptyArgmax ∧
    create_hero_metrics_topCity [] ≠ Except.error AppError.noDataError := by
  refine ⟨rfl, ?_, rfl, ?_⟩ <;>
    simp [create_customer_insights_box_topSegment, create_hero_metrics_topCity,
      seriesIdxmax, groupSum]

/-- C8: filtering is idempotent — applying the same criteria twice yields
the same output as applying them once. (Mutation-freedom of the pipeline
is inherent to the embedding: pandas boolean-mask selection and the
`df.copy()` at src/app.py line 652 derive new frames, modelled as pure
functions on immutable lists.) -/
theorem filter_idempotent (c : FilterCriteria) (df : List Record) :
    applyFilter c (applyFilter c df) = applyFilter c df := by
  simp [applyFilter, List.filter_filter]

theorem not_mem_renameClusterColumns (cols : List String) (c : String)
    (hc : c ≠ "cluster_catgeory") (h : c ∉ cols) : c ∉ renameClusterColumns cols := by
  unfold renameClusterColumns
  split
  · intro hmem
    obtain ⟨d, hd, hfd⟩ := List.mem_map.1 hmem
    by_cases hdc : d = "cluster_category"
    · rw [if_pos hdc] at hfd
      exact hc hfd.symm
    · rw [if_neg hdc] at hfd
      exact h (hfd ▸ hd)
  · exact h

/-- What the dead `load_data` function would do if it were called (it
never is — see `main_load_skips_schema_check` for the program's actual
load path): when a required field is absent under all its known name
variants, its primary path fails with a report naming the expected
field(s) and the dataset's actual columns and never returns a dataset;
on success the returned dataset carries the canonical column names
(`cluster_catgeory` and every expected column present) and the unchanged
rows. -/
theorem load_reports_missing_columns_and_halts (df : DataFrame) :
    (("cluster_catgeory" ∉ df.cols ∧ "cluster_category" ∉ df.cols) →
      load_data_fromFile df =
        Except.error ⟨["cluster_catgeory", "cluster_category"], df.cols⟩) ∧
    (("cluster_catgeory" ∈ df.cols ∨ "cluster_category" ∈ df.cols) →
      ∀ c ∈ requiredDataCols, c ∉ df.cols →
        ∃ e, load_data_fromFile df = Except.error e ∧ c ∈ e.missing ∧
          e.available = renameClusterColumns df.cols) ∧
    (((∃ c ∈ requiredDataCols, c ∉ df.cols) ∨
        ("cluster_catgeory" ∉ df.cols ∧ "cluster_category" ∉ df.cols)) →
      ∀ out, load_data_fromFile df ≠ Except.ok out) ∧
    (∀ out, load_data_fromFile df = Except.ok out →
      out.cols = renameClusterColumns df.cols ∧ out.rows = df.rows ∧
        "cluster_catgeory" ∈ out.cols ∧ ∀ c ∈ expected_columns, c ∈ out.cols) := by
  have h1 : ("cluster_catgeory" ∉ df.cols ∧ "cluster_category" ∉ df.cols) →
      load_data_fromFile df =
        Except.error ⟨["cluster_catgeory", "cluster_category"], df.cols⟩ := by
    intro h
    simp [load_data_fromFile, h]
  have h2 : ("cluster_catgeory" ∈ df.cols ∨ "cluster_category" ∈ df.cols) →
      ∀ c ∈ requiredDataCols, c ∉ df.cols →
        ∃ e, load_data_fromFile df = Except.error e ∧ c ∈ e.missing ∧
          e.available = renameClusterColumns df.cols := by
    intro hseg c hcreq hc
    have hcond : ¬("cluster_catgeory" ∉ df.cols ∧ "cluster_category" ∉ df.cols) := by
      tauto
    have hne : c ≠ "cluster_catgeory" := by
      fin_cases hcreq <;> decide
    have hexp : c ∈ expected_columns := by
      fin_cases hcreq <;> decide
    have hc2 : c ∉ renameClusterColumns df.cols :=
      not_mem_renameClusterColumns df.cols c hne hc
    have hmem : c ∈ expected_columns.filter
        (fun x => decide (x ∉ renameClusterColumns df.cols)) :=
      List.mem_filter.2 ⟨hexp, by simpa using hc2⟩
    have hmem2 : c ∈ loadMissing df := List.mem_append_left _ hmem
    have hnil : loadMissing df ≠ [] := List.ne_nil_of_mem hmem2
    refine ⟨⟨loadMissing df, renameClusterColumns df.cols⟩, ?_, hmem2, rfl⟩
    rw [load_data_fromFile, if_neg hcond, if_neg hnil]
  have h3 : ((∃ c ∈ requiredDataCols, c ∉ df.cols) ∨
      ("cluster_catgeory" ∉ df.cols ∧ "cluster_category" ∉ df.cols)) →
      ∀ out, load_data_fromFile df ≠ Except.ok out := by
    rintro (⟨c, hcreq, hc⟩ | hboth) out hok
    · by_cases hseg : "cluster_catgeory" ∈ df.cols ∨ "cluster_category" ∈ df.cols
      · obtain ⟨e, he, -, -⟩ := h2 hseg c hcreq hc
        rw [he] at hok
        exact Except.noConfusion hok
      · push_neg at hseg
        rw [h1 hseg] at hok
        exact Except.noConfusion hok
    · rw [h1 hboth] at hok
      exact Except.noConfusion hok
  refine ⟨h1, h2, h3, ?_⟩
  intro out hout
  rw [load_data_fromFile] at hout
  split at hout
  · exact absurd hout (by simp)
  split at hout
  case isTrue hmiss =>
    have hout2 : out = ⟨renameClusterColumns df.cols, df.rows⟩ :=
      (Except.ok.inj hout).symm
    obtain ⟨hfilter, hifpart⟩ := List.append_eq_nil.1 hmiss
    have hcatg : "cluster_catgeory" ∈ renameClusterColumns df.cols := by
      by_contra hnc
      rw [if_pos hnc] at hifpart
      exact List.noConfusion hifpart
    have hall : ∀ c ∈ expected_columns, c ∈ renameClusterColumns df.cols := by
      intro c hcexp
      have := List.filter_eq_nil_iff.1 hfilter c hcexp
      simpa using this
    exact ⟨by rw [hout2], by rw [hout2], by rw [hout2]; exact hcatg,
      by rw [hout2]; exact hall⟩
  · exact absurd hout (by simp)

/-- Concrete instance of `load_reports_missing_columns_and_halts`: a
header lacking `Customer_ID` (segment column present) would be rejected
by the dead `load_data` with a report naming `Customer_ID` among the
missing columns. -/
theorem load_reports_missing_columns_and_halts_witness :
    ∃ e, load_data_fromFile ⟨["outlet_city", "cluster_catgeory"], []⟩ =
        Except.error e ∧ "Customer_ID" ∈ e.missing ∧
        e.available = renameClusterColumns ["outlet_city", "cluster_catgeory"] :=
  (load_reports_missing_columns_and_halts
    ⟨["outlet_city", "cluster_catgeory"], []⟩).2.1 (Or.inl (by decide))
    "Customer_ID" (by decide) (by decide)

/-- C3: the program's actual load performs no schema check. `main` loads
with a bare `pd.read_csv` (line 119) and the schema-checking `load_data`
is dead code, so a header missing every required field loads successfully
and the program proceeds with partial data; it then dies at the first
column access (line 128, `df['outlet_city']`) with a bare `KeyError`
naming only the requested key — not the expected field names, not the
actual column set — contrary to the claimed descriptive failure. The dead
`load_data` would have rejected the same header, which is what the claim
describes. -/
theorem main_load_skips_schema_check :
    main_load ⟨["foo"], []⟩ = ⟨["foo"], []⟩ ∧
    "Customer_ID" ∉ (main_load ⟨["foo"], []⟩).cols ∧
    "outlet_city" ∉ (main_load ⟨["foo"], []⟩).cols ∧
    getColumn (main_load ⟨["foo"], []⟩) "outlet_city" =
      Except.error ⟨"outlet_city"⟩ ∧
    load_data_fromFile ⟨["foo"], []⟩ =
      Except.error ⟨["cluster_catgeory", "cluster_category"], ["foo"]⟩ := by
  refine ⟨rfl, by decide, by decide, rfl, rfl⟩

/-- C10: the upload fallback returns the uploaded dataset after at most
the segment-column rename, with no required-column check: it succeeds on
every header, and in particular on a header missing `Customer_ID`,
`luxury_sales` and the rest — a schema the primary path rejects. -/
theorem upload_fallback_skips_validation :
    (∀ df : DataFrame, load_data_fromUpload df =
      Except.ok ⟨renameClusterColumns df.cols, df.rows⟩) ∧
    load_data_fromUpload ⟨["outlet_city", "cluster_catgeory"], []⟩ =
      Except.ok ⟨["outlet_city", "cluster_catgeory"], []⟩ ∧
    (∃ e, load_data_fromFile ⟨["outlet_city", "cluster_catgeory"], []⟩ =
      Except.error e ∧ "Customer_ID" ∈ e.missing ∧ "luxury_sales" ∈ e.missing) := by
  refine ⟨fun df => rfl, rfl, ?_⟩
  refine ⟨⟨["Customer_ID", "luxury_sales", "fresh_sales", "dry_sales",
    "cluster_name", "Total_sales"], ["outlet_city", "cluster_catgeory"]⟩, ?_, ?_, ?_⟩
  · rfl
  · decide
  · decide

theorem groupSum_map_of_preserve (key : Record → String) (measure : Record → Int)
    (g : Record → Record) (hkey : ∀ r, key (g r) = key r)
    (hmeas : ∀ r, measure (g r) = measure r) (df : List Record) :
    groupSum key measure (df.map g) = groupSum key measure df := by
  unfold groupSum
  have hmapkey : (df.map g).map key = df.map key := by
    rw [List.map_map]
    exact List.map_congr_left (fun r _ => hkey r)
  rw [hmapkey]
  apply List.map_congr_left
  intro k _
  congr 1
  have hfilter : (df.map g).filter (fun r => decide (key r = k)) =
      (df.filter (fun r => decide (key r = k))).map g := by
    rw [List.filter_map]
    congr 1
    apply List.filter_congr
    intro r _
    simp [Function.comp, hkey r]
  rw [hfilter, List.map_map]
  congr 1
  exact List.map_congr_left (fun r _ => hmeas r)

/-- C9: when the CSV header carries both `cluster_category` and
`cluster_catgeory`, the loader performs no rename (both columns survive
intact), and downstream computations read only `cluster_catgeory`:
overwriting the `cluster_category` data of every row changes neither the
segment revenue donut, nor the top-segment insight, nor which rows the
filter keeps. -/
theorem both_cluster_columns_kept_and_category_ignored (cols : List String)
    (df : List Record) (f : Record → Option String) (c : FilterCriteria) :
    ("cluster_category" ∈ cols → "cluster_catgeory" ∈ cols →
      renameClusterColumns cols = cols) ∧
    create_cluster_donut_data (df.map (setClusterCategory f)) =
      create_cluster_donut_data df ∧
    create_customer_insights_box_topSegment (df.map (setClusterCategory f)) =
      create_customer_insights_box_topSegment df ∧
    applyFilter c (df.map (setClusterCategory f)) =
      (applyFilter c df).map (setClusterCategory f) := by
  refine ⟨?_, ?_, ?_, ?_⟩
  · intro h1 h2
    rw [renameClusterColumns, if_neg]
    tauto
  · exact groupSum_map_of_preserve (fun r => r.cluster_catgeory)
      (fun r => r.total_sales) (setClusterCategory f) (fun r => rfl) (fun r => rfl) df
  · unfold create_customer_insights_box_topSegment
    rw [groupSum_map_of_preserve (fun r => r.cluster_catgeory)
      (fun r => r.total_sales) (setClusterCategory f) (fun r => rfl) (fun r => rfl) df]
  · unfold applyFilter
    rw [List.filter_map]
    congr 1

/-- C9 witness: on the two-column header both spellings survive the
loader untouched. -/
theorem both_cluster_columns_kept_witness :
    renameClusterColumns ["cluster_category", "cluster_catgeory"] =
      ["cluster_category", "cluster_catgeory"] :=
  (both_cluster_columns_kept_and_category_ignored
    ["cluster_category", "cluster_catgeory"] [] (fun _ => none)
    ⟨[], [], 0, 0⟩).1 (by decide) (by decide)

theorem spendingTier_isSome_iff (t : Int) : (spendingTier t).isSome ↔ 0 < t := by
  unfold spendingTier
  split_ifs <;> simp <;> omega

theorem spendingTier_mem_tierLabels (t : Int) (lab : String)
    (h : spendingTier t = some lab) : lab ∈ tierLabels := by
  unfold spendingTier at h
  split_ifs at h <;> simp_all [tierLabels]

theorem tier_counts_sum (df : List Record) :
    ((create_customer_spending_tiers_counts df).map Prod.snd).sum =
      (df.filter (fun r => decide (0 < r.total_sales))).length := by
  simp only [create_customer_spending_tiers_counts, tierLabels, List.map_cons,
    List.map_nil, List.sum_cons, List.sum_nil]
  induction df with
  | nil => rfl
  | cons r t ih =>
    rcases h : spendingTier r.total_sales with _ | lab
    · have hpos : ¬(0 < r.total_sales) := by
        rw [← spendingTier_isSome_iff, h]
        simp
      simpa [List.filter_cons, h, hpos] using ih
    · have hpos : 0 < r.total_sales := by
        rw [← spendingTier_isSome_iff, h]
        rfl
      have hmem := spendingTier_mem_tierLabels r.total_sales lab h
      fin_cases hmem <;> (simp [List.filter_cons, h, hpos]; omega)

/-- C4 counterexample: a record with `Total_sales = 0` — equal to the
first bin edge, hence in range and destined for the first bucket per the
claim — is assigned to no bucket and silently vanishes from the tier
counts (sum 0 over the one-record set); a value below the first edge is
likewise dropped with no `OutOfRangeError` (the code has no such error:
`value_counts` just ignores the NaN rows `pd.cut` produces). -/
theorem tier_zero_total_silently_dropped :
    spendingTier 0 = none ∧ spendingTier (-5) = none ∧
    ((create_customer_spending_tiers_counts
      [⟨1, "Colombo", "A", 0, 0, 0, 0, none⟩]).map Prod.snd).sum = 0 := by
  refine ⟨by decide, by decide, by decide⟩

/-- C4 (amended): the first bin is left-exclusive and out-of-bin values
are silently dropped, so the buckets partition exactly the records with
`0 < Total_sales`: each such record lands in exactly one labeled bucket,
the tier counts sum to the number of such records, and every record with
`Total_sales ≤ 0` is assigned no bucket (and no error is raised — the
code has no `OutOfRangeError`). -/
theorem tiers_partition_positive_totals (df : List Record) :
    (∀ r ∈ df, 0 < r.total_sales →
      ∃! lab, spendingTier r.total_sales = some lab ∧ lab ∈ tierLabels) ∧
    ((create_customer_spending_tiers_counts df).map Prod.snd).sum =
      (df.filter (fun r => decide (0 < r.total_sales))).length ∧
    (∀ r ∈ df, r.total_sales ≤ 0 → spendingTier r.total_sales = none) := by
  refine ⟨?_, tier_counts_sum df, ?_⟩
  · intro r _ hpos
    obtain ⟨lab, hlab⟩ := Option.isSome_iff_exists.1
      ((spendingTier_isSome_iff r.total_sales).2 hpos)
    exact ⟨lab, ⟨hlab, spendingTier_mem_tierLabels _ _ hlab⟩,
      fun y hy => by rw [hlab] at hy; exact (Option.some.inj hy.1).symm⟩
  · intro r _ hle
    rcases h : spendingTier r.total_sales with _ | lab
    · rfl
    · have := (spendingTier_isSome_iff r.total_sales).1 (by rw [h]; rfl)
      omega

/-- C4 witness: over one record with total 1500 and one with total 0 the
tier counts sum to 1, and 1500 has exactly one bucket. -/
theorem tiers_partition_positive_totals_witness :
    ((create_customer_spending_tiers_counts
      [⟨1, "Colombo", "A", 0, 0, 0, 1500, none⟩,
       ⟨2, "Kandy", "B", 0, 0, 0, 0, none⟩]).map Prod.snd).sum = 1 ∧
    (∃! lab, spendingTier 1500 = some lab ∧ lab ∈ tierLabels) := by
  have h := tiers_partition_positive_totals
    [⟨1, "Colombo", "A", 0, 0, 0, 1500, none⟩, ⟨2, "Kandy", "B", 0, 0, 0, 0, none⟩]
  exact ⟨by rw [h.2.1]; rfl,
    h.1 ⟨1, "Colombo", "A", 0, 0, 0, 1500, none⟩ (by simp) (by decide)⟩

theorem component_sums_eq_total (l : List Record)
    (hl : ∀ r ∈ l, r.total_sales = r.luxury_sales + r.fresh_sales + r.dry_sales) :
    (l.map (fun r => r.luxury_sales)).sum + (l.map (fun r => r.fresh_sales)).sum +
      (l.map (fun r => r.dry_sales)).sum = (l.map (fun r => r.total_sales)).sum := by
  induction l with
  | nil => rfl
  | cons r t ih =>
    simp only [List.map_cons, List.sum_cons]
    have hr := hl r (List.mem_cons_self r t)
    have ht := ih (fun x hx => hl x (List.mem_cons_of_mem r hx))
    omega

/-- C6 counterexample: `load_data` validates only column names, so a
record with `Total_sales = 10` but category sales `1 + 1 + 1` loads
successfully on a complete header, and on it the three hero share
percentages sum to 30, not 100 — the invariant is silently trusted, not
validated. -/
theorem total_invariant_not_validated_at_load :
    load_data_fromFile ⟨expected_columns ++ ["cluster_catgeory"],
        [⟨1, "Colombo", "A", 1, 1, 1, 10, none⟩]⟩ =
      Except.ok ⟨expected_columns ++ ["cluster_catgeory"],
        [⟨1, "Colombo", "A", 1, 1, 1, 10, none⟩]⟩ ∧
    luxury_share [⟨1, "Colombo", "A", 1, 1, 1, 10, none⟩] +
      fresh_share [⟨1, "Colombo", "A", 1, 1, 1, 10, none⟩] +
      dry_share [⟨1, "Colombo", "A", 1, 1, 1, 10, none⟩] = 30 ∧
    (30 : ℚ) ≠ 100 := by
  refine ⟨rfl, ?_, by norm_num⟩
  simp [luxury_share, fresh_share, dry_share]
  norm_num

/-- C6 (amended): the loader never checks `total_sales` against the three
category amounts; the hero share percentages sum to 100% exactly when the
data itself satisfies the invariant — proved here: if every record has
`total_sales = luxury + fresh + dry` and total revenue is nonzero, the
three shares sum to 100. -/
theorem shares_sum_100_when_invariant_holds (df : List Record)
    (hinv : ∀ r ∈ df, r.total_sales = r.luxury_sales + r.fresh_sales + r.dry_sales)
    (hnz : (((df.map (fun r => r.total_sales)).sum : ℤ) : ℚ) ≠ 0) :
    luxury_share df + fresh_share df + dry_share df = 100 := by
  have h2 : (((df.map (fun r => r.luxury_sales)).sum : ℤ) : ℚ) +
      (((df.map (fun r => r.fresh_sales)).sum : ℤ) : ℚ) +
      (((df.map (fun r => r.dry_sales)).sum : ℤ) : ℚ) =
      (((df.map (fun r => r.total_sales)).sum : ℤ) : ℚ) := by
    exact_mod_cast congrArg (fun z : ℤ => (z : ℚ)) (component_sums_eq_total df hinv)
  have hfactor : luxury_share df + fresh_share df + dry_share df =
      ((((df.map (fun r => r.luxury_sales)).sum : ℤ) : ℚ) +
          (((df.map (fun r => r.fresh_sales)).sum : ℤ) : ℚ) +
          (((df.map (fun r => r.dry_sales)).sum : ℤ) : ℚ)) /
        (((df.map (fun r => r.total_sales)).sum : ℤ) : ℚ) * 100 := by
    unfold luxury_share fresh_share dry_share
    ring
  rw [hfactor, h2, div_self hnz, one_mul]

/-- C6 witness: one record with 2 + 3 + 5 = 10 gives shares summing to
exactly 100. -/
theorem shares_sum_100_when_invariant_holds_witness :
    luxury_share [⟨1, "Colombo", "A", 2, 3, 5, 10, none⟩] +
      fresh_share [⟨1, "Colombo", "A", 2, 3, 5, 10, none⟩] +
      dry_share [⟨1, "Colombo", "A", 2, 3, 5, 10, none⟩] = 100 :=
  shares_sum_100_when_invariant_holds [⟨1, "Colombo", "A", 2, 3, 5, 10, none⟩]
    (by decide) (by norm_num)

theorem city_revenue_perm (df : List Record) :
    (city_revenue df).Perm
      (groupSum (fun r => r.outlet_city) (fun r => r.total_sales) df) :=
  List.mergeSort_perm _ _

theorem city_revenue_snd_sum (df : List Record) :
    ((city_revenue df).map Prod.snd).sum =
      ((groupSum (fun r => r.outlet_city) (fun r => r.total_sales) df).map Prod.snd).sum :=
  ((city_revenue_perm df).map Prod.snd).sum_eq

theorem groupSum_fst (key : Record → String) (measure : Record → Int)
    (df : List Record) :
    (groupSum key measure df).map Prod.fst = (df.map key).dedup := by
  unfold groupSum
  rw [List.map_map]
  exact List.map_id _

theorem mem_city_revenue_label (df : List Record) (k : String) :
    k ∈ (city_revenue df).map Prod.fst ↔ k ∈ df.map (fun r => r.outlet_city) := by
  rw [((city_revenue_perm df).map Prod.fst).mem_iff, groupSum_fst]
  exact List.mem_dedup

theorem groupSum_snd_nonneg (key : Record → String) (measure : Record → Int)
    (df : List Record) (h : ∀ r ∈ df, 0 ≤ measure r) :
    ∀ p ∈ groupSum key measure df, 0 ≤ p.2 := by
  intro p hp
  unfold groupSum at hp
  obtain ⟨k, _, rfl⟩ := List.mem_map.1 hp
  apply List.sum_nonneg
  intro x hx
  obtain ⟨r, hr, rfl⟩ := List.mem_map.1 hx
  exact h r (List.mem_of_mem_filter hr)

theorem city_revenue_sorted (df : List Record) :
    (city_revenue df).Pairwise (fun a b : String × Int => b.2 ≤ a.2) := by
  have := @List.sorted_mergeSort (String × Int) (fun a b => decide (b.2 ≤ a.2))
    (by intro a b c hab hbc; simp at *; omega)
    (by intro a b; simp; omega)
    (groupSum (fun r => r.outlet_city) (fun r => r.total_sales) df)
  simpa [city_revenue, sortDescBySnd] using this

/-- C5: the top-10-with-Others city revenue summary. Under the data
model's constraints (non-negative sales; no city literally named
"Others"): the output total equals the `group_sum` total (conservation);
with at most 10 distinct cities the output is just the descending revenue
series (no "Others" bucket); any "Others" entry carries a positive sum
(it is omitted when its sum is zero); and the top part of the output is
the revenue series in descending order. -/
theorem city_revenue_donut_top10_others (df : List Record)
    (hpos : ∀ r ∈ df, 0 ≤ r.total_sales)
    (hoth : "Others" ∉ df.map (fun r => r.outlet_city)) :
    ((create_city_revenue_donut_data df).map Prod.snd).sum =
      ((groupSum (fun r => r.outlet_city) (fun r => r.total_sales) df).map Prod.snd).sum ∧
    ((df.map (fun r => r.outlet_city)).dedup.length ≤ 10 →
      create_city_revenue_donut_data df = city_revenue df) ∧
    (∀ v, ("Others", v) ∈ create_city_revenue_donut_data df → 0 < v) ∧
    ((create_city_revenue_donut_data df).take 10).Pairwise
      (fun a b : String × Int => b.2 ≤ a.2) := by
  have hlen : (city_revenue df).length = (df.map (fun r => r.outlet_city)).dedup.length := by
    rw [(city_revenue_perm df).length_eq]
    unfold groupSum
    rw [List.length_map]
  have hnotin : "Others" ∉ (city_revenue df).map Prod.fst := by
    rw [mem_city_revenue_label]
    exact hoth
  have hNotInTake : "Others" ∉ ((city_revenue df).take 10).map Prod.fst := by
    intro hmem
    exact hnotin (((List.take_sublist 10 (city_revenue df)).map Prod.fst).subset hmem)
  have hsplit : (((city_revenue df).take 10).map Prod.snd).sum +
      (((city_revenue df).drop 10).map Prod.snd).sum =
      ((city_revenue df).map Prod.snd).sum := by
    conv_rhs => rw [← List.take_append_drop 10 (city_revenue df)]
    rw [List.map_append, List.sum_append]
  have hosnn : 0 ≤ others_sum df := by
    apply List.sum_nonneg
    intro x hx
    obtain ⟨p, hp, rfl⟩ := List.mem_map.1 hx
    exact groupSum_snd_nonneg _ _ df hpos p
      ((city_revenue_perm df).subset (List.drop_subset 10 (city_revenue df) hp))
  refine ⟨?_, ?_, ?_, ?_⟩
  · by_cases hgt : 10 < (city_revenue df).length
    · by_cases ho : 0 < others_sum df
      · rw [create_city_revenue_donut_data, if_pos hgt, if_pos ho, setSeriesItem,
          if_neg hNotInTake, List.map_append, List.sum_append, ← city_revenue_snd_sum,
          ← hsplit]
        simp [others_sum]
      · have hzero : others_sum df = 0 := le_antisymm (not_lt.1 ho) hosnn
        rw [create_city_revenue_donut_data, if_pos hgt, if_neg ho, ← city_revenue_snd_sum,
          ← hsplit]
        have : (((city_revenue df).drop 10).map Prod.snd).sum = 0 := hzero
        omega
    · rw [create_city_revenue_donut_data, if_neg hgt]
      exact city_revenue_snd_sum df
  · intro h10
    have : ¬(10 < (city_revenue df).length) := by omega
    rw [create_city_revenue_donut_data, if_neg this]
  · intro v hv
    by_cases hgt : 10 < (city_revenue df).length
    · by_cases ho : 0 < others_sum df
      · rw [create_city_revenue_donut_data, if_pos hgt, if_pos ho, setSeriesItem,
          if_neg hNotInTake] at hv
        rcases List.mem_append.1 hv with hv | hv
        · exact absurd (List.mem_map.2 ⟨("Others", v), hv, rfl⟩) hNotInTake
        · have h := List.mem_singleton.1 hv
          rw [Prod.mk.injEq] at h
          rw [h.2]
          exact ho
      · rw [create_city_revenue_donut_data, if_pos hgt, if_neg ho] at hv
        exact absurd (List.mem_map.2 ⟨("Others", v), hv, rfl⟩) hNotInTake
    · rw [create_city_revenue_donut_data, if_neg hgt] at hv
      exact absurd (List.mem_map.2 ⟨("Others", v), hv, rfl⟩) hnotin
  · by_cases hgt : 10 < (city_revenue df).length
    · by_cases ho : 0 < others_sum df
      · rw [create_city_revenue_donut_data, if_pos hgt, if_pos ho, setSeriesItem,
          if_neg hNotInTake]
        have hlen10 : ((city_revenue df).take 10).length = 10 := by
          rw [List.length_take]
          omega
        rw [List.take_append_of_le_length (by omega), List.take_take]
        exact List.Pairwise.sublist (List.take_sublist _ _) (city_revenue_sorted df)
      · rw [create_city_revenue_donut_data, if_pos hgt, if_neg ho, List.take_take]
        exact List.Pairwise.sublist (List.take_sublist _ _) (city_revenue_sorted df)
    · rw [create_city_revenue_donut_data, if_neg hgt]
      exact List.Pairwise.sublist (List.take_sublist _ _) (city_revenue_sorted df)

/-- C5 witness: on two cities with revenues 5 and 3 the donut data is the
full descending series, totals are conserved, and no "Others" appears. -/
theorem city_revenue_donut_top10_others_witness :
    ((create_city_revenue_donut_data
      [⟨1, "Colombo", "A", 0, 0, 0, 5, none⟩,
       ⟨2, "Kandy", "B", 0, 0, 0, 3, none⟩]).map Prod.snd).sum =
      ((groupSum (fun r => r.outlet_city) (fun r => r.total_sales)
        [⟨1, "Colombo", "A", 0, 0, 0, 5, none⟩,
         ⟨2, "Kandy", "B", 0, 0, 0, 3, none⟩]).map Prod.snd).sum :=
  (city_revenue_donut_top10_others
    [⟨1, "Colombo", "A", 0, 0, 0, 5, none⟩, ⟨2, "Kandy", "B", 0, 0, 0, 3, none⟩]
    (by decide) (by decide)).1

/-- C7 counterexample: on a 10,001-row set, two invocations of the
customer-segment-analysis data under different RNG states return
different row sets — the seedless `df.sample(10000)` makes the chart
nondeterministic once the filtered set exceeds 10,000 rows. -/
theorem segment_analysis_nondeterministic_over_10000 :
    create_customer_segment_analysis_data 0 bigDf ≠
      create_customer_segment_analysis_data 1 bigDf := by
  have hlen : bigDf.length = 10001 := by
    simp [bigDf]
  have hm : 1 % 10001 = 1 := Nat.mod_eq_of_lt (by norm_num)
  have h0 : create_customer_segment_analysis_data 0 bigDf = bigDf.take 10000 := by
    simp [create_customer_segment_analysis_data, sampleRows, hlen]
  have h1 : create_customer_segment_analysis_data 1 bigDf =
      (bigDf.drop 1 ++ bigDf.take 1).take 10000 := by
    simp [create_customer_segment_analysis_data, sampleRows, hlen, hm]
  have e0 : (bigDf.take 10000)[0]? = some ⟨0, "Colombo", "A", 0, 0, 0, 1, none⟩ := by
    simp [List.getElem?_take, bigDf, List.getElem?_range]
  have hdl : (bigDf.drop 1).length = 10000 := by
    simp [hlen]
  have e1 : ((bigDf.drop 1 ++ bigDf.take 1).take 10000)[0]? =
      some ⟨1, "Colombo", "A", 0, 0, 0, 1, none⟩ := by
    rw [List.getElem?_take, if_pos (by norm_num), List.getElem?_append,
      if_pos (by omega)]
    simp [List.getElem?_drop, bigDf, List.getElem?_range]
  intro heq
  have h2 := congrArg (fun l => l[0]?) heq
  rw [h0, h1] at h2
  simp only at h2
  rw [e0, e1] at h2
  simp at h2

/-- C7 (amended): the segment-analysis scatter data is deterministic — the
filtered set itself, independent of RNG state — whenever the filtered set
has at most 10,000 rows; above that the seedless sample breaks
determinism (see the counterexample). -/
theorem segment_analysis_deterministic_le_10000 (s t : Nat) (df : List Record)
    (h : df.length ≤ 10000) :
    create_customer_segment_analysis_data s df =
      create_customer_segment_analysis_data t df := by
  simp only [create_customer_segment_analysis_data]
  rw [if_neg (by omega), if_neg (by omega)]

/-- C7 witness: determinism at a concrete small input. -/
theorem segment_analysis_deterministic_le_10000_witness :
    create_customer_segment_analysis_data 0 [⟨1, "Colombo", "A", 0, 0, 0, 5, none⟩] =
      create_customer_segment_analysis_data 1 [⟨1, "Colombo", "A", 0, 0, 0, 5, none⟩] :=
  segment_analysis_deterministic_le_10000 0 1 [⟨1, "Colombo", "A", 0, 0, 0, 5, none⟩]
    (by decide)

end GrowEasy
